import Mathlib

/-!
Shallow embedding of the photometry stages of the banzai pipeline
(`banzai/photometry.py`): the `SourceDetector` stage (background-subtracted
source extraction, aperture photometry, catalog assembly, frame statistics)
and the `PhotometricCalibrator` stage (reference-catalog matching and
zeropoint fitting).

Floating-point values are idealised as exact rationals; the IEEE NaN is
modelled by `Option ℚ` with `none` playing the role of NaN (arithmetic
propagates it, comparisons against it are false, as in numpy).  The external
collaborators (the SEP C library, skimage's contour tracer, numpy reductions
and the repository utility modules that are not part of this verification
unit) are modelled as oracle functions gathered in an `Extern` record: the
pipeline is proved correct for every behaviour of those collaborators, and
concrete instantiations are used for witnesses and counterexamples.
-/

namespace Banzai

/-- A floating-point value: `none` models IEEE NaN. -/
abbrev V : Type := Option ℚ

/-- Addition with NaN propagation. -/
def vAdd : V → V → V
  | some a, some b => some (a + b)
  | _, _ => none

/-- Subtraction with NaN propagation. -/
def vSub : V → V → V
  | some a, some b => some (a - b)
  | _, _ => none

/-- Multiplication with NaN propagation. -/
def vMul : V → V → V
  | some a, some b => some (a * b)
  | _, _ => none

/-- Division with NaN propagation; division by zero is collapsed to NaN
(idealising the IEEE infinities, which the pipeline never compares). -/
def vDiv : V → V → V
  | some a, some b => if b = 0 then none else some (a / b)
  | _, _ => none

/-- Comparison `a > b` in numpy semantics: any comparison involving NaN is false. -/
def vGt : V → V → Bool
  | some a, some b => decide (b < a)
  | _, _ => false

/-- Comparison `a < b` in numpy semantics: any comparison involving NaN is false. -/
def vLt : V → V → Bool
  | some a, some b => decide (a < b)
  | _, _ => false

/-- The IEEE-754 double closest to π, which is what `np.pi` denotes. -/
def npPi : ℚ := 884279719003555 / 281474976710656

/-- A FITS header value: either a number (possibly NaN) or a string. -/
inductive MV : Type
  | num (v : V)
  | str (s : String)
  deriving DecidableEq, Repr

/-- Severity of an emitted log record. -/
inductive LogLvl : Type
  | info
  | warn
  | error
  deriving DecidableEq, Repr

/-- Lookup of a header keyword (first match). -/
def metaGet : List (String × MV) → String → Option MV
  | [], _ => none
  | (k', v) :: rest, k => if k' = k then some v else metaGet rest k

/-- Assignment `image.meta[key] = value`: replace the first occurrence or append. -/
def metaSet (m : List (String × MV)) (k : String) (v : MV) : List (String × MV) :=
  match m with
  | [] => [(k, v)]
  | (k', v') :: rest => if k' = k then (k, v) :: rest else (k', v') :: metaSet rest k v

/-- One row of the raw `sep.extract` output table (the columns the pipeline
reads).  Bounding-box corners and peak pixel coordinates are integers, the
measured quantities are floats. -/
structure RawSource where
  x : V
  y : V
  a : V
  b : V
  theta : V
  peak : V
  flux : V
  x2 : V
  y2 : V
  xy : V
  xpeak : ℤ
  ypeak : ℤ
  xmin : ℤ
  xmax : ℤ
  ymin : ℤ
  ymax : ℤ
  flag : ℕ
  deriving DecidableEq, Repr

/-- A catalog row: the raw extraction columns together with every column the
`SourceDetector` stage accretes (`ellipticity`, `kronrad`, fluxes, growth
radii, FWHM/FWTM, windowed positions, background) and the `mag`/`magerr`
columns created later by the `PhotometricCalibrator`.  Columns that the code
has not yet assigned hold `none`. -/
structure Source where
  x : V
  y : V
  a : V
  b : V
  theta : V
  peak : V
  flux : V
  x2 : V
  y2 : V
  xy : V
  xpeak : ℤ
  ypeak : ℤ
  xmin : ℤ
  xmax : ℤ
  ymin : ℤ
  ymax : ℤ
  flag : ℕ
  ellipticity : V
  kronrad : V
  fluxerr : V
  fluxaper : List (V × V)
  fluxrad25 : V
  fluxrad50 : V
  fluxrad75 : V
  fwhm : V
  fwtm : V
  xwin : V
  ywin : V
  background : V
  mag : V
  magerr : V
  deriving DecidableEq, Repr

/-- Lift a raw extraction row into a catalog row with all derived columns
still unassigned. -/
def mkInitial (r : RawSource) : Source :=
  { x := r.x, y := r.y, a := r.a, b := r.b, theta := r.theta, peak := r.peak
    flux := r.flux, x2 := r.x2, y2 := r.y2, xy := r.xy
    xpeak := r.xpeak, ypeak := r.ypeak
    xmin := r.xmin, xmax := r.xmax, ymin := r.ymin, ymax := r.ymax
    flag := r.flag
    ellipticity := none, kronrad := none, fluxerr := none, fluxaper := []
    fluxrad25 := none, fluxrad50 := none, fluxrad75 := none
    fwhm := none, fwtm := none, xwin := none, ywin := none
    background := none, mag := none, magerr := none }

/-- The external collaborators of the `SourceDetector` stage, each closed
over the background-subtracted data / background map: the SEP C routines
(`extract`, `kron_radius`, `sum_ellipse`, `sum_circle`, `flux_radius`,
`winpos`), skimage's `measure.find_contours`, numpy's `sqrt` and `nanmedian`
and the repository statistics helpers (`sigma_clipped_mean` etc., which live
outside this verification unit).  `bkgOk` is false when `sep.Background`
fails even after the byte-swap retry; `extractOk` is false when
`sep.extract` raises. -/
structure Extern where
  bkgOk : Bool
  extractOk : Bool
  extracted : List RawSource
  bkgMean : ℚ
  bkgMedian : ℚ
  bkgSigma : ℚ
  kron : V → V → V → V → V → ℚ → V × ℕ
  sumEllipse : V → V → V → V → ℚ → V → V × V × ℕ
  sumCircle : V → V → ℚ → V × V × ℕ
  fluxRadius : V → V → V → V → (V × V × V) × ℕ
  findContours : ℤ → ℤ → ℤ → ℤ → V → List (List (ℚ × ℚ))
  sqrt : ℚ → ℚ
  winpos : V → V → V → V × V × ℕ
  sumEllipseBkg : V → V → V → V → ℚ → V → V × V × ℕ
  nanmedian : List V → V
  sigClipMean : List V → ℚ → V

/-- An image as the photometry stages see it: pixel scale, filter name,
exposure time, FITS header and the optional attached `'CAT'` table. -/
structure Image where
  pixelScale : ℚ
  filter : String
  exptime : ℚ
  meta : List (String × MV)
  cat : Option (List Source)
  deriving DecidableEq, Repr

/-- Line 71, `sources = sources[sources['flag'] < 8]`: drop detections flagged with
bit 8 or above (memory overflow, edge proximity). -/
def detFilter (r : RawSource) : Bool := decide (r.flag < 8)

/-- Modelled from the spec: `array_utils.prune_nans_from_table` is not part
of this verification unit; per the spec it removes every row whose position
or flux entries are NaN. -/
def pruneOk (r : RawSource) : Bool := r.x.isSome && r.y.isSome && r.flux.isSome

/-- Line 76, `sources['ellipticity'] = 1.0 - sources['b'] / sources['a']`. -/
def mapEllip (s : Source) : Source :=
  { s with ellipticity := vSub (some 1) (vDiv s.b s.a) }

/-- Lines 80-81: subtract π from any θ above π/2, then add π to any θ below
−π/2 (the second mask is evaluated on the updated values). -/
def thetaFixV (t : V) : V :=
  let t1 := if vGt t (some (npPi / 2)) then vSub t (some npPi) else t
  if vLt t1 (some (-(npPi / 2))) then vAdd t1 (some npPi) else t1

/-- Apply the θ normalisation to a source row. -/
def mapThetaFix (s : Source) : Source := { s with theta := thetaFixV s.theta }

/-- Line 84, `sep.kron_radius(data, x, y, a, b, theta, 6.0)`; the returned flag is
OR'd into the row flag and the radius stored as `kronrad`. -/
def mapKron (E : Extern) (s : Source) : Source :=
  let r := E.kron s.x s.y s.a s.b s.theta 6
  { s with kronrad := r.1, flag := s.flag ||| r.2 }

/-- Line 91, `sep.sum_ellipse(data, x, y, a, b, π/2, 2.5*kronrad)`: the Kron-like
elliptical aperture flux; flux, error and OR'd flag. -/
def mapFlux (E : Extern) (s : Source) : Source :=
  let r := E.sumEllipse s.x s.y s.a s.b (npPi / 2) (vMul (some (5/2)) s.kronrad)
  { s with flux := r.1, fluxerr := r.2.1, flag := s.flag ||| r.2.2 }

/-- Circular aperture photometry for diameters 1..6 arcsec, radius
`diameter / 2 / pixel_scale` pixels; each flag OR'd into the row flag. -/
def mapCircles (E : Extern) (ps : ℚ) (s : Source) : Source :=
  List.foldl
    (fun acc d =>
      let r := E.sumCircle acc.x acc.y (d / 2 / ps)
      { acc with fluxaper := acc.fluxaper ++ [(r.1, r.2.1)], flag := acc.flag ||| r.2.2 })
    s [1, 2, 3, 4, 5, 6]

/-- Line 108, `sep.flux_radius(data, x, y, 6*a, [0.25, 0.5, 0.75], normflux=flux)`:
flux-growth radii, flag OR'd. -/
def mapFluxRadius (E : Extern) (s : Source) : Source :=
  let r := E.fluxRadius s.x s.y (vMul (some 6) s.a) s.flux
  { s with fluxrad25 := r.1.1, fluxrad50 := r.1.2.1, fluxrad75 := r.1.2.2,
           flag := s.flag ||| r.2 }

/-- Line 117, `sources = sources[sources['fluxrad50'] > 0.5]`: the single-bright-pixel
(cosmic-ray) cut.  NaN compares false and is therefore also removed. -/
def fradOk (s : Source) : Bool := vGt s.fluxrad50 (some (1/2))

/-- Insert into a sorted rational list (ascending). -/
def insertQ (q : ℚ) : List ℚ → List ℚ
  | [] => [q]
  | x :: xs => if q ≤ x then q :: x :: xs else x :: insertQ q xs

/-- Ascending insertion sort of rationals. -/
def sortQ : List ℚ → List ℚ
  | [] => []
  | x :: xs => insertQ x (sortQ xs)

/-- Model of `np.percentile(a, p)` with the default linear interpolation: on the
sorted values, the virtual index is `(n-1)*p/100` and the result is taken by
linear interpolation between the two bracketing order statistics. -/
def percentile (p : ℚ) (l : List ℚ) : ℚ :=
  match sortQ l with
  | [] => 0
  | x :: xs =>
    let s := x :: xs
    let h : ℚ := (s.length - 1 : ℤ) * p / 100
    let i : ℤ := ⌊h⌋
    let lo := s.getD i.toNat x
    let hi := s.getD (i.toNat + 1) lo
    lo + (h - i) * (hi - lo)

/-- Model of `np.nanmax` over a (NaN-free) list of values. -/
def listMax : List ℚ → ℚ
  | [] => 0
  | x :: xs => xs.foldl max x

/-- Function `radius_of_contour(contour, source)` of the source: the 90th percentile of the
distances of the contour points from the centre of the source's bounding
box.  Contour points are `(row, column)` pairs, i.e. `x = contour[:, 1]` and
`y = contour[:, 0]`; `sq` models `np.sqrt`. -/
def radius_of_contour (sq : ℚ → ℚ) (contour : List (ℚ × ℚ)) (s : Source) : ℚ :=
  let x_center : ℚ := ((s.xmax : ℚ) - (s.xmin : ℚ) + 1) / 2 - 1/2
  let y_center : ℚ := ((s.ymax : ℚ) - (s.ymin : ℚ) + 1) / 2 - 1/2
  percentile 90
    (contour.map (fun p => sq ((p.2 - x_center)^2 + (p.1 - y_center)^2)))

/-- One contour-tracing measurement (lines 125-132): trace contours at
`ratio * peak` inside the source's bounding box; if any contour is found the
result is twice the largest contour radius, otherwise the NaN initialisation
is retained. -/
def contourLevel (E : Extern) (s : Source) (ratio : ℚ) : V :=
  match E.findContours s.ymin s.ymax s.xmin s.xmax (vMul (some ratio) s.peak) with
  | [] => none
  | c :: cs => some (2 * listMax ((c :: cs).map (fun c' => radius_of_contour E.sqrt c' s)))

/-- The FWHM (`ratio = 1/2`) or FWTM (`ratio = 1/10`) value of a source:
computed only for rows whose flag is still zero, NaN otherwise. -/
def fwhmVal (E : Extern) (s : Source) (ratio : ℚ) : V :=
  if s.flag == 0 then contourLevel E s ratio else none

/-- Lines 120-132: initialise `fwhm`/`fwtm` to NaN and fill them by contour
tracing for flag-zero sources. -/
def mapFwhm (E : Extern) (s : Source) : Source :=
  { s with fwhm := fwhmVal E s (1/2), fwtm := fwhmVal E s (1/10) }

/-- Line 136, `sep.winpos(data, x, y, 2/2.35 * fwhm)`: windowed positions, flag OR'd.
`2/2.35 = 40/47` exactly. -/
def mapWinpos (E : Extern) (s : Source) : Source :=
  let r := E.winpos s.x s.y (vMul (some (40/47)) s.fwhm)
  { s with xwin := r.1, ywin := r.2.1, flag := s.flag ||| r.2.2 }

/-- Line 149, `(2.5*kronrad)^2 * a * b * π`: the elliptical background aperture area
of a source (line 149). -/
def bkgArea (s : Source) : V :=
  let t := vMul (some (5/2)) s.kronrad
  vMul (vMul (vMul (vMul t t) s.a) s.b) (some npPi)

/-- Lines 141-151: sum the background map over the Kron-like ellipse (at
position angle π/2) and normalise by the aperture area only where that area
is strictly positive. -/
def mapBackground (E : Extern) (s : Source) : Source :=
  let bf := (E.sumEllipseBkg s.x s.y s.a s.b (npPi / 2)
              (vMul (some (5/2)) s.kronrad)).1
  { s with background := if vGt (bkgArea s) (some 0) then vDiv bf (bkgArea s) else bf }

/-- Lines 153-160: shift every pixel position from python to FITS
convention. -/
def mapShift (s : Source) : Source :=
  { s with x := vAdd s.x (some 1), y := vAdd s.y (some 1),
           xpeak := s.xpeak + 1, ypeak := s.ypeak + 1,
           xwin := vAdd s.xwin (some 1), ywin := vAdd s.ywin (some 1) }

/-- Model of `np.degrees`: multiply by 180/π. -/
def degreesV (t : V) : V := vDiv (vMul t (some 180)) (some npPi)

/-- Line 162: convert the position angle to degrees. -/
def mapDegrees (s : Source) : Source := { s with theta := degreesV s.theta }

/-- The per-source measurements performed before the `fluxrad50` cut:
ellipticity, θ normalisation, Kron radius, elliptical flux, circular
apertures, flux-growth radii (lines 76-114). -/
def phase1 (E : Extern) (ps : ℚ) (r : RawSource) : Source :=
  mapFluxRadius E (mapCircles E ps (mapFlux E (mapKron E (mapThetaFix (mapEllip (mkInitial r))))))

/-- The per-source measurements performed after the `fluxrad50` cut:
FWHM/FWTM, windowed positions, per-source background, convention shift,
degrees conversion (lines 119-162). -/
def phase2 (E : Extern) (s : Source) : Source :=
  mapDegrees (mapShift (mapBackground E (mapWinpos E (mapFwhm E s))))

/-- Ordering key for `catalog.sort('flux')`: NaN sorts last, as in numpy. -/
def fluxSortLe (s t : Source) : Bool :=
  match s.flux, t.flux with
  | none, none => true
  | some _, none => true
  | none, some _ => false
  | some p, some q => decide (p ≤ q)

/-- Insertion into a flux-sorted list. -/
def insertFlux (s : Source) : List Source → List Source
  | [] => [s]
  | t :: ts => if fluxSortLe s t then s :: t :: ts else t :: insertFlux s ts

/-- Ascending insertion sort by flux. -/
def sortFluxAsc : List Source → List Source
  | [] => []
  | s :: ss => insertFlux s (sortFluxAsc ss)

/-- Lines 227-228, `catalog.sort('flux'); catalog.reverse()`: descending flux order. -/
def sortFluxDesc (l : List Source) : List Source := (sortFluxAsc l).reverse

/-- The full catalog construction of the `SourceDetector` stage: flag and
NaN pruning of the raw detections, phase-1 photometry, the `fluxrad50` cut,
phase-2 photometry, and the final descending flux sort. -/
def catalogOf (E : Extern) (ps : ℚ) (raws : List RawSource) : List Source :=
  sortFluxDesc
    (((((raws.filter detFilter).filter pruneOk).map (phase1 E ps)).filter fradOk).map
      (phase2 E))

/-- The frame-statistics mask (lines 244-246): flag zero and no NaN in FWHM,
ellipticity or position angle. -/
def isGood (s : Source) : Bool :=
  s.flag == 0 && s.fwhm.isSome && s.ellipticity.isSome && s.theta.isSome

/-- Stage `SourceDetector.do_stage`: returns the (possibly enriched) image and the
levels of the log records it emitted.  A background failure that survives
the byte-swap retry, or an `sep.extract` failure, is caught and logged and
the image is returned unmodified. -/
def doStage (E : Extern) (img : Image) : Image × List LogLvl :=
  if E.bkgOk = false then (img, [LogLvl.error])
  else if E.extractOk = false then (img, [LogLvl.error])
  else
    let cat := catalogOf E img.pixelScale E.extracted
    let good := cat.filter isGood
    let m1 :=
      metaSet
        (metaSet (metaSet img.meta "L1MEAN" (MV.num (some E.bkgMean)))
          "L1MEDIAN" (MV.num (some E.bkgMedian)))
        "L1SIGMA" (MV.num (some E.bkgSigma))
    let m2 :=
      if good.isEmpty then
        metaSet
          (metaSet (metaSet (metaSet m1 "L1FWHM" (MV.str "NaN")) "L1FWTM" (MV.str "NaN"))
            "L1ELLIP" (MV.str "NaN"))
          "L1ELLIPA" (MV.str "NaN")
      else
        metaSet
          (metaSet
            (metaSet
              (metaSet m1 "L1FWHM"
                (MV.num (vMul (E.nanmedian (good.map Source.fwhm)) (some img.pixelScale))))
              "L1FWTM" (MV.num (E.nanmedian (good.map (fun s => vDiv s.fwtm s.fwhm)))))
            "L1ELLIP" (MV.num (E.sigClipMean (good.map Source.ellipticity) 3)))
          "L1ELLIPA" (MV.num (E.sigClipMean (good.map Source.theta) 3))
    ({ img with meta := m2, cat := some cat }, [LogLvl.info])

/-- The filters the `PhotometricCalibrator` supports. -/
def supportedFilters : List String := ["gp", "rp", "ip", "zs"]

/-- Dictionary `PhotometricCalibrator.color_to_fit`. -/
def colorToFit : String → String
  | "gp" => "g-r"
  | "rp" => "r-i"
  | "ip" => "r-i"
  | "zs" => "i-z"
  | _ => ""

/-- Line 304: the sources eligible for cross-matching, `flag == 0` and
`flux > 0`. -/
def goodSources (cat : List Source) : List Source :=
  cat.filter (fun s => s.flag == 0 && vGt s.flux (some 0))

/-- Check `image.meta.get('WCSERR', 1) > 0`: the astrometric solution is treated
as failed when the keyword is missing or holds a positive number (a NaN
value compares false, i.e. counts as not failed, as in numpy). -/
def wcsFailed (img : Image) : Bool :=
  match metaGet img.meta "WCSERR" with
  | some (MV.num v) => vGt v (some 0)
  | some (MV.str _) => true
  | none => true

/-- The external collaborators of the `PhotometricCalibrator`:
`get_reference_sources` (which may raise an `HTTPError`, modelled by
`Except.error`), `match_catalogs`, `fit_photometry` (which may raise,
modelled by `Except.error`) and `to_magnitude` — all from
`banzai.utils.photometry_utils`, outside this verification unit. `α` is the
type of reference catalogs and `β` the type of matched-pair rows. -/
structure CalExtern (α β : Type) where
  getRefSources : Except Unit α
  matchCatalogs : List Source → α → List β
  fitPhotometry : List β → String → String → ℚ → Except Unit (ℚ × ℚ × ℚ × ℚ)
  toMagnitude : V → V → ℚ → ℚ → V × V

/-- Stage `PhotometricCalibrator.do_stage`: returns the (possibly calibrated)
image together with the levels of the log records it emitted. -/
def calibDoStage {α β : Type} (C : CalExtern α β) (img : Image) : Image × List LogLvl :=
  if supportedFilters.contains img.filter = false then (img, [])
  else
    match img.cat with
    | none => (img, [LogLvl.warn])
    | some cat =>
      if wcsFailed img then (img, [LogLvl.warn])
      else
        match C.getRefSources with
        | Except.error _ => (img, [LogLvl.error])
        | Except.ok ref =>
          let matched := C.matchCatalogs (goodSources cat) ref
          if matched.isEmpty then (img, [LogLvl.error])
          else
            match C.fitPhotometry matched (img.filter.take 1) (colorToFit img.filter)
                img.exptime with
            | Except.error _ => (img, [LogLvl.error])
            | Except.ok fit =>
              let meta' :=
                metaSet
                  (metaSet
                    (metaSet
                      (metaSet (metaSet img.meta "L1ZP" (MV.num (some fit.1)))
                        "L1ZPERR" (MV.num (some fit.2.1)))
                      "L1COLORU" (MV.str (colorToFit img.filter)))
                    "L1COLOR" (MV.num (some fit.2.2.1)))
                  "L1COLERR" (MV.num (some fit.2.2.2))
              let cat' := cat.map (fun s =>
                let m := C.toMagnitude s.flux s.fluxerr fit.1 img.exptime
                { s with mag := m.1, magerr := m.2 })
              ({ img with meta := meta', cat := some cat' }, [])

/-! ### Concrete instantiations used for witnesses and counterexamples -/

/-- A benign oracle: every external measurement succeeds with unit values
and no flags. -/
def trivExtern : Extern where
  bkgOk := true
  extractOk := true
  extracted := []
  bkgMean := 0
  bkgMedian := 0
  bkgSigma := 0
  kron := fun _ _ _ _ _ _ => (some 1, 0)
  sumEllipse := fun _ _ _ _ _ _ => (some 1, some 1, 0)
  sumCircle := fun _ _ _ => (some 1, some 1, 0)
  fluxRadius := fun _ _ _ _ => ((some 1, some 1, some 1), 0)
  findContours := fun _ _ _ _ _ => []
  sqrt := id
  winpos := fun x y _ => (x, y, 0)
  sumEllipseBkg := fun _ _ _ _ _ _ => (some 0, some 0, 0)
  nanmedian := fun _ => some 0
  sigClipMean := fun _ _ => some 0

/-- A minimal image. -/
def trivImage : Image where
  pixelScale := 1
  filter := "rp"
  exptime := 1
  meta := []
  cat := none

/-- A well-behaved raw detection. -/
def rawTemplate : RawSource where
  x := some 1
  y := some 1
  a := some 1
  b := some 1
  theta := some 0
  peak := some 10
  flux := some 5
  x2 := some 1
  y2 := some 1
  xy := some 0
  xpeak := 1
  ypeak := 1
  xmin := 0
  xmax := 2
  ymin := 0
  ymax := 2
  flag := 0

/-- Oracle whose Kron-radius call reports flag 16 and whose elliptical flux
comes out NaN: the final catalog row then carries flag 16 and NaN flux. -/
def exKronFlag : Extern :=
  { trivExtern with
    extracted := [rawTemplate]
    kron := fun _ _ _ _ _ _ => (some 1, 16)
    sumEllipse := fun _ _ _ _ _ _ => (none, none, 0) }

/-- Oracle for the C1 amended witness: one clean detection. -/
def exClean : Extern := { trivExtern with extracted := [rawTemplate] }

/-- A raw detection whose position angle is exactly −π/2. -/
def rawThetaHalfPi : RawSource := { rawTemplate with theta := some (-(npPi / 2)) }

/-- Oracle extracting the −π/2 source. -/
def exThetaHalfPi : Extern := { trivExtern with extracted := [rawThetaHalfPi] }

/-- Oracle for the C2 witness: contour tracing at level 5 (half of the peak
10) finds one two-point contour, at level 1 (tenth of the peak) a one-point
contour. -/
def exContours : Extern :=
  { trivExtern with
    extracted := [rawTemplate]
    findContours := fun _ _ _ _ lvl =>
      if lvl = some 5 then [[(0, 0), (0, 2)]]
      else if lvl = some 1 then [[(1, 1)]]
      else [] }

/-- Oracle for the C8 witness: the half-flux growth radius comes out 1/4
pixel, i.e. below the cosmic-ray cut. -/
def exSmallRadius : Extern :=
  { trivExtern with
    extracted := [rawTemplate]
    fluxRadius := fun _ _ _ _ => ((some 1, some (1/4), some 1), 0) }

/-- A zero-area raw detection (`a = 0`). -/
def rawZeroA : RawSource := { rawTemplate with a := some 0 }

/-- Oracle for the C9 witness: SEP degrades gracefully on zero-area inputs,
returning zero radius and zero flux. -/
def exZeroArea : Extern :=
  { trivExtern with
    extracted := [rawZeroA]
    kron := fun _ _ a b _ _ =>
      if a = some 0 || b = some 0 then (some 0, 0) else (some 1, 0)
    sumEllipse := fun _ _ a b _ rr =>
      if a = some 0 || b = some 0 || rr = some 0 || rr = none then (some 0, some 1, 0)
      else (some 1, some 1, 0) }

/-- A trivial calibrator oracle. -/
def calTriv : CalExtern Unit Unit where
  getRefSources := Except.ok ()
  matchCatalogs := fun _ _ => []
  fitPhotometry := fun _ _ _ _ => Except.ok (0, 0, 0, 0)
  toMagnitude := fun _ _ _ _ => (none, none)

/-- A calibrator oracle with a different zeropoint fit, to exhibit
fit-independence. -/
def calTrivAltFit : CalExtern Unit Unit :=
  { calTriv with fitPhotometry := fun _ _ _ _ => Except.ok (1, 2, 3, 4) }

/-- An image in an unsupported filter band. -/
def imgUnsupported : Image := { trivImage with filter := "B" }

/-- An image eligible for photometric calibration: supported filter, an
attached (empty) catalog and a successful WCS solution. -/
def imgCalReady : Image :=
  { trivImage with cat := some [], meta := [("WCSERR", MV.num (some 0))] }

/-- The SEP zero-area contract, as the spec states it: on a zero-area
source (zero semi-axis, or an aperture radius that is zero or NaN) the Kron
radius and the elliptical flux come back zero or NaN instead of raising. -/
def sepZeroAreaGraceful (E : Extern) : Prop :=
  (∀ x y a b th r, a = some 0 ∨ b = some 0 →
      (E.kron x y a b th r).1 = some 0 ∨ (E.kron x y a b th r).1 = none) ∧
  (∀ x y a b th rr, a = some 0 ∨ b = some 0 ∨ rr = some 0 ∨ rr = none →
      (E.sumEllipse x y a b th rr).1 = some 0 ∨ (E.sumEllipse x y a b th rr).1 = none)

/-- The intermediate source list right before the `fluxrad50` cut (flag and
NaN pruning plus phase-1 photometry). -/
def midList (E : Extern) (ps : ℚ) (raws : List RawSource) : List Source :=
  ((raws.filter detFilter).filter pruneOk).map (phase1 E ps)

/-! ### Helper lemmas -/

theorem mem_insertFlux {s t : Source} {l : List Source} :
    s ∈ insertFlux t l ↔ s = t ∨ s ∈ l := by
  induction l with
  | nil => simp [insertFlux]
  | cons u us ih =>
    by_cases h : fluxSortLe t u = true
    · simp [insertFlux, h]
    · simp only [insertFlux, if_neg h, List.mem_cons, ih]
      tauto

theorem mem_sortFluxAsc {s : Source} {l : List Source} :
    s ∈ sortFluxAsc l ↔ s ∈ l := by
  induction l with
  | nil => simp [sortFluxAsc]
  | cons u us ih => simp [sortFluxAsc, mem_insertFlux, ih]

theorem mem_sortFluxDesc {s : Source} {l : List Source} :
    s ∈ sortFluxDesc l ↔ s ∈ l := by
  simp [sortFluxDesc, mem_sortFluxAsc]

/-- Membership in the assembled catalog, unfolded down to the underlying raw
detection: a catalog row is exactly the phase-2 image of the phase-1 image
of a raw detection that survived the flag cut, the NaN pruning and the
`fluxrad50` cut. -/
theorem mem_catalogOf {E : Extern} {ps : ℚ} {raws : List RawSource} {s : Source} :
    s ∈ catalogOf E ps raws ↔
      ∃ r ∈ raws, detFilter r = true ∧ pruneOk r = true ∧
        fradOk (phase1 E ps r) = true ∧ s = phase2 E (phase1 E ps r) := by
  unfold catalogOf
  rw [mem_sortFluxDesc]
  simp only [List.mem_map, List.mem_filter]
  constructor
  · rintro ⟨a, ⟨⟨⟨r, ⟨⟨hr, hd⟩, hp⟩, rfl⟩, hf⟩, rfl⟩⟩
    exact ⟨r, hr, hd, hp, hf, rfl⟩
  · rintro ⟨r, hr, hd, hp, hf, rfl⟩
    exact ⟨phase1 E ps r, ⟨⟨r, ⟨⟨hr, hd⟩, hp⟩, rfl⟩, hf⟩, rfl⟩

theorem lor_eq_zero_left {a b : ℕ} (h : a ||| b = 0) : a = 0 := by
  apply Nat.eq_of_testBit_eq
  intro i
  have ht := congrArg (fun n => Nat.testBit n i) h
  simp only [Nat.testBit_lor] at ht
  simp only [Nat.zero_testBit]
  simp at ht
  exact ht.1

theorem metaGet_metaSet_same (m : List (String × MV)) (k : String) (v : MV) :
    metaGet (metaSet m k v) k = some v := by
  induction m with
  | nil => simp [metaSet, metaGet]
  | cons p rest ih =>
    by_cases h : p.1 = k
    · simp [metaSet, metaGet, h]
    · simp [metaSet, metaGet, h, ih]

theorem metaGet_metaSet_other (m : List (String × MV)) (k k' : String) (v : MV)
    (h : k' ≠ k) : metaGet (metaSet m k v) k' = metaGet m k' := by
  induction m with
  | nil => simp [metaSet, metaGet, Ne.symm h]
  | cons p rest ih =>
    by_cases hp : p.1 = k
    · subst hp
      simp [metaSet, metaGet, Ne.symm h]
    · simp only [metaSet, if_neg hp, metaGet]
      by_cases hq : p.1 = k'
      · simp [hq]
      · simp [hq, ih]

/-! #### Field tracking through the pipeline phases -/

theorem phase1_x (E : Extern) (ps : ℚ) (r : RawSource) : (phase1 E ps r).x = r.x := rfl

theorem phase1_y (E : Extern) (ps : ℚ) (r : RawSource) : (phase1 E ps r).y = r.y := rfl

theorem phase1_a (E : Extern) (ps : ℚ) (r : RawSource) : (phase1 E ps r).a = r.a := rfl

theorem phase1_b (E : Extern) (ps : ℚ) (r : RawSource) : (phase1 E ps r).b = r.b := rfl

theorem phase1_peak (E : Extern) (ps : ℚ) (r : RawSource) : (phase1 E ps r).peak = r.peak := rfl

theorem phase1_xmin (E : Extern) (ps : ℚ) (r : RawSource) : (phase1 E ps r).xmin = r.xmin := rfl

theorem phase1_xmax (E : Extern) (ps : ℚ) (r : RawSource) : (phase1 E ps r).xmax = r.xmax := rfl

theorem phase1_ymin (E : Extern) (ps : ℚ) (r : RawSource) : (phase1 E ps r).ymin = r.ymin := rfl

theorem phase1_ymax (E : Extern) (ps : ℚ) (r : RawSource) : (phase1 E ps r).ymax = r.ymax := rfl

theorem phase1_theta (E : Extern) (ps : ℚ) (r : RawSource) :
    (phase1 E ps r).theta = thetaFixV r.theta := rfl

theorem phase1_kronrad (E : Extern) (ps : ℚ) (r : RawSource) :
    (phase1 E ps r).kronrad = (E.kron r.x r.y r.a r.b (thetaFixV r.theta) 6).1 := rfl

theorem phase1_flux (E : Extern) (ps : ℚ) (r : RawSource) :
    (phase1 E ps r).flux =
      (E.sumEllipse r.x r.y r.a r.b (npPi / 2)
        (vMul (some (5/2)) (E.kron r.x r.y r.a r.b (thetaFixV r.theta) 6).1)).1 := rfl

theorem phase1_fluxerr (E : Extern) (ps : ℚ) (r : RawSource) :
    (phase1 E ps r).fluxerr =
      (E.sumEllipse r.x r.y r.a r.b (npPi / 2)
        (vMul (some (5/2)) (E.kron r.x r.y r.a r.b (thetaFixV r.theta) 6).1)).2.1 := rfl

theorem phase2_x (E : Extern) (s : Source) : (phase2 E s).x = vAdd s.x (some 1) := rfl

theorem phase2_y (E : Extern) (s : Source) : (phase2 E s).y = vAdd s.y (some 1) := rfl

theorem phase2_a (E : Extern) (s : Source) : (phase2 E s).a = s.a := rfl

theorem phase2_b (E : Extern) (s : Source) : (phase2 E s).b = s.b := rfl

theorem phase2_peak (E : Extern) (s : Source) : (phase2 E s).peak = s.peak := rfl

theorem phase2_xmin (E : Extern) (s : Source) : (phase2 E s).xmin = s.xmin := rfl

theorem phase2_xmax (E : Extern) (s : Source) : (phase2 E s).xmax = s.xmax := rfl

theorem phase2_ymin (E : Extern) (s : Source) : (phase2 E s).ymin = s.ymin := rfl

theorem phase2_ymax (E : Extern) (s : Source) : (phase2 E s).ymax = s.ymax := rfl

theorem phase2_flux (E : Extern) (s : Source) : (phase2 E s).flux = s.flux := rfl

theorem phase2_fluxerr (E : Extern) (s : Source) : (phase2 E s).fluxerr = s.fluxerr := rfl

theorem phase2_kronrad (E : Extern) (s : Source) : (phase2 E s).kronrad = s.kronrad := rfl

theorem phase2_fluxrad50 (E : Extern) (s : Source) : (phase2 E s).fluxrad50 = s.fluxrad50 := rfl

theorem phase2_theta (E : Extern) (s : Source) : (phase2 E s).theta = degreesV s.theta := rfl

theorem phase2_fwhm (E : Extern) (s : Source) : (phase2 E s).fwhm = fwhmVal E s (1/2) := rfl

theorem phase2_fwtm (E : Extern) (s : Source) : (phase2 E s).fwtm = fwhmVal E s (1/10) := rfl

theorem phase2_flag (E : Extern) (s : Source) :
    (phase2 E s).flag =
      s.flag ||| (E.winpos s.x s.y (vMul (some (40/47)) (fwhmVal E s (1/2)))).2.2 := rfl

theorem phase2_background (E : Extern) (s : Source) :
    (phase2 E s).background =
      if vGt (bkgArea s) (some 0) then
        vDiv (E.sumEllipseBkg s.x s.y s.a s.b (npPi / 2) (vMul (some (5/2)) s.kronrad)).1
          (bkgArea s)
      else (E.sumEllipseBkg s.x s.y s.a s.b (npPi / 2) (vMul (some (5/2)) s.kronrad)).1 := rfl

/-- The map `contourLevel` reads only the bounding box and the peak value of a row,
so it is invariant under the later pipeline steps. -/
theorem contourLevel_congr (E : Extern) {s t : Source}
    (h1 : s.xmin = t.xmin) (h2 : s.xmax = t.xmax) (h3 : s.ymin = t.ymin)
    (h4 : s.ymax = t.ymax) (h5 : s.peak = t.peak) (ratio : ℚ) :
    contourLevel E s ratio = contourLevel E t ratio := by
  unfold contourLevel radius_of_contour
  rw [h1, h2, h3, h4, h5]

/-! ### Claim theorems -/

/-- Claim C6: any internal failure during source extraction (a background
estimate that fails even after the byte-swap retry, or a raising
`sep.extract`) is caught and logged as an error, and the stage returns the
image unmodified — no catalog attached, no metadata changed — instead of
raising past the stage boundary. -/
theorem C6_extraction_failure_leaves_image_unmodified (E : Extern) (img : Image)
    (h : E.bkgOk = false ∨ E.extractOk = false) :
    doStage E img = (img, [LogLvl.error]) ∧
    (doStage E img).1.cat = img.cat ∧ (doStage E img).1.meta = img.meta := by
  have hmain : doStage E img = (img, [LogLvl.error]) := by
    unfold doStage
    rcases h with h | h
    · simp [h]
    · cases hb : E.bkgOk <;> simp [h, hb]
  exact ⟨hmain, by rw [hmain], by rw [hmain]⟩

/-- Witness for C6 at a concrete failing extraction. -/
theorem C6_witness :
    doStage { trivExtern with extractOk := false } trivImage = (trivImage, [LogLvl.error]) :=
  (C6_extraction_failure_leaves_image_unmodified
    { trivExtern with extractOk := false } trivImage (Or.inr rfl)).1

/-- Claim C8: the cosmic-ray cut `sources[sources['fluxrad50'] > 0.5]`
removes every source whose half-flux growth radius is at most half a pixel
and keeps every source whose radius exceeds half a pixel, and it happens
right between phase-1 photometry and the remaining (phase-2) photometric
measurements that feed the catalog. -/
theorem C8_fluxrad50_cut (E : Extern) (ps : ℚ) (raws : List RawSource)
    (t : Source) (q : ℚ) (ht : t ∈ midList E ps raws) (hq : t.fluxrad50 = some q) :
    (q ≤ 1/2 → t ∉ (midList E ps raws).filter fradOk) ∧
    (1/2 < q → t ∈ (midList E ps raws).filter fradOk) ∧
    catalogOf E ps raws =
      sortFluxDesc (((midList E ps raws).filter fradOk).map (phase2 E)) := by
  refine ⟨?_, ?_, rfl⟩
  · intro hle hmem
    rw [List.mem_filter] at hmem
    have hgt : fradOk t = true := hmem.2
    simp only [fradOk, vGt, hq, decide_eq_true_eq] at hgt
    linarith
  · intro hlt
    rw [List.mem_filter]
    refine ⟨ht, ?_⟩
    simp only [fradOk, vGt, hq, decide_eq_true_eq]
    exact hlt

unseal Rat.add Rat.mul Rat.sub Rat.inv in
/-- Witness for C8: a concrete detection measured with a 1/4-pixel
half-flux radius is cut. -/
theorem C8_witness :
    (phase1 exSmallRadius 1 rawTemplate).fluxrad50 = some (1/4) ∧
    phase1 exSmallRadius 1 rawTemplate ∉
      (midList exSmallRadius 1 [rawTemplate]).filter fradOk := by
  have h := C8_fluxrad50_cut exSmallRadius 1 [rawTemplate]
    (phase1 exSmallRadius 1 rawTemplate) (1/4) (by decide) (by decide)
  exact ⟨by decide, h.1 (by norm_num)⟩

unseal Rat.add Rat.mul Rat.sub Rat.inv in
/-- Counterexample to claim C1 as stated: with a Kron-radius call that
reports flag 16 and an elliptical flux that comes out NaN — behaviours SEP
documents for truncated or masked apertures — the stage still attaches the
catalog, and its (only) row has flag 16 ≥ 8 and a NaN flux column. -/
theorem C1_counterexample :
    ((doStage exKronFlag trivImage).1.cat).isSome = true ∧
    ¬(∀ s ∈ ((doStage exKronFlag trivImage).1.cat).getD [],
        s.flag < 8 ∧ s.flux ≠ none) := by
  decide

/-- Claim C1, amended: the flag cut (`flag < 8`) and the NaN pruning are
applied to the raw extraction table before any photometric measurement, so
every final catalog row derives from a pruned raw detection (extraction
flag below 8, non-NaN raw positions and flux) and its position columns are
still non-NaN; the final flag column, however, accumulates the
aperture-photometry flags by bitwise OR and may therefore reach 8 or more,
and the measured flux columns are whatever the photometry returned,
possibly NaN. -/
theorem C1_amended_pruning (E : Extern) (ps : ℚ) (raws : List RawSource) (s : Source)
    (hs : s ∈ catalogOf E ps raws) :
    ∃ r ∈ raws, r.flag < 8 ∧ pruneOk r = true ∧ s = phase2 E (phase1 E ps r) ∧
      s.x ≠ none ∧ s.y ≠ none := by
  obtain ⟨r, hr, hd, hp, hf, rfl⟩ := mem_catalogOf.mp hs
  have hflag : r.flag < 8 := by simpa [detFilter] using hd
  have hx : r.x.isSome = true := by
    have := hp
    simp only [pruneOk, Bool.and_eq_true] at this
    exact this.1.1
  have hy : r.y.isSome = true := by
    have := hp
    simp only [pruneOk, Bool.and_eq_true] at this
    exact this.1.2
  refine ⟨r, hr, hflag, hp, rfl, ?_, ?_⟩
  · rw [phase2_x, phase1_x]
    cases hxx : r.x with
    | none => rw [hxx] at hx; simp at hx
    | some q => simp [vAdd]
  · rw [phase2_y, phase1_y]
    cases hyy : r.y with
    | none => rw [hyy] at hy; simp at hy
    | some q => simp [vAdd]

unseal Rat.add Rat.mul Rat.sub Rat.inv in
/-- Witness for the amended C1 at a concrete clean extraction. -/
theorem C1_amended_witness :
    phase2 exClean (phase1 exClean 1 rawTemplate) ∈ catalogOf exClean 1 [rawTemplate] ∧
    ∃ r ∈ [rawTemplate], r.flag < 8 ∧ pruneOk r = true ∧
      phase2 exClean (phase1 exClean 1 rawTemplate) = phase2 exClean (phase1 exClean 1 r) ∧
      (phase2 exClean (phase1 exClean 1 rawTemplate)).x ≠ none ∧
      (phase2 exClean (phase1 exClean 1 rawTemplate)).y ≠ none := by
  have hs : phase2 exClean (phase1 exClean 1 rawTemplate) ∈ catalogOf exClean 1 [rawTemplate] := by
    decide
  exact ⟨hs, C1_amended_pruning exClean 1 [rawTemplate] _ hs⟩

/-- Claim C2: for every catalog source whose flag is zero, FWHM and FWTM
are obtained by contour tracing at 50% and 10% of the source's peak pixel
value within its bounding box — the value being twice the largest contour
radius, where a contour's radius is the 90th percentile of its points'
distances from the box centre — and a source for which contour tracing
yields no contour retains the NaN initialisation. -/
theorem C2_fwhm_by_contours (E : Extern) (ps : ℚ) (raws : List RawSource) (s : Source)
    (hs : s ∈ catalogOf E ps raws) (hflag : s.flag = 0) :
    s.fwhm = contourLevel E s (1/2) ∧ s.fwtm = contourLevel E s (1/10) ∧
    (E.findContours s.ymin s.ymax s.xmin s.xmax (vMul (some (1/2)) s.peak) = [] →
      s.fwhm = none) ∧
    (E.findContours s.ymin s.ymax s.xmin s.xmax (vMul (some (1/10)) s.peak) = [] →
      s.fwtm = none) := by
  obtain ⟨r, hr, hd, hp, hf, rfl⟩ := mem_catalogOf.mp hs
  set m := phase1 E ps r with hm
  have hmid : m.flag = 0 := by
    rw [phase2_flag] at hflag
    exact lor_eq_zero_left hflag
  have hcongr : ∀ ratio : ℚ, contourLevel E (phase2 E m) ratio = contourLevel E m ratio :=
    fun ratio =>
      contourLevel_congr E (phase2_xmin E m) (phase2_xmax E m) (phase2_ymin E m)
        (phase2_ymax E m) (phase2_peak E m) ratio
  have h1 : (phase2 E m).fwhm = contourLevel E (phase2 E m) (1/2) := by
    rw [phase2_fwhm, fwhmVal, if_pos (by simp [hmid]), hcongr]
  have h2 : (phase2 E m).fwtm = contourLevel E (phase2 E m) (1/10) := by
    rw [phase2_fwtm, fwhmVal, if_pos (by simp [hmid]), hcongr]
  refine ⟨h1, h2, ?_, ?_⟩
  · intro hempty
    rw [h1]
    unfold contourLevel
    rw [hempty]
  · intro hempty
    rw [h2]
    unfold contourLevel
    rw [hempty]

unseal Rat.add Rat.mul Rat.sub Rat.inv in
/-- Witness for C2 at a concrete flag-zero source: contour tracing at half
the peak finds the two-point contour `[(0,0), (0,2)]`, whose points both lie
at distance 2 from the box centre `(1,1)`, so the FWHM is `2 * 2 = 4`. -/
theorem C2_witness :
    phase2 exContours (phase1 exContours 1 rawTemplate) ∈
      catalogOf exContours 1 [rawTemplate] ∧
    (phase2 exContours (phase1 exContours 1 rawTemplate)).flag = 0 ∧
    (phase2 exContours (phase1 exContours 1 rawTemplate)).fwhm =
      contourLevel exContours (phase2 exContours (phase1 exContours 1 rawTemplate)) (1/2) ∧
    (phase2 exContours (phase1 exContours 1 rawTemplate)).fwhm = some 4 ∧
    (phase2 exContours (phase1 exContours 1 rawTemplate)).fwtm = some 0 := by
  have h := C2_fwhm_by_contours exContours 1 [rawTemplate]
    (phase2 exContours (phase1 exContours 1 rawTemplate)) (by decide) (by decide)
  exact ⟨by decide, by decide, h.1, by decide, by decide⟩

/-- Claim C10: both the Kron-like elliptical aperture flux and the
per-source elliptical background are integrated over an ellipse whose
position angle argument is the constant π/2, independent of the source's
own measured `theta`; besides the centre only the semi-axes `a`, `b` and
the Kron radius of the source enter the aperture geometry. -/
theorem C10_ellipse_angle_is_half_pi (E : Extern) (ps : ℚ) (raws : List RawSource)
    (s : Source) (hs : s ∈ catalogOf E ps raws) :
    ∃ x y a b kr,
      s.x = vAdd x (some 1) ∧ s.y = vAdd y (some 1) ∧
      s.a = a ∧ s.b = b ∧ s.kronrad = kr ∧
      s.flux = (E.sumEllipse x y a b (npPi / 2) (vMul (some (5/2)) kr)).1 ∧
      s.fluxerr = (E.sumEllipse x y a b (npPi / 2) (vMul (some (5/2)) kr)).2.1 ∧
      s.background =
        (if vGt (bkgArea s) (some 0) then
          vDiv (E.sumEllipseBkg x y a b (npPi / 2) (vMul (some (5/2)) kr)).1 (bkgArea s)
        else (E.sumEllipseBkg x y a b (npPi / 2) (vMul (some (5/2)) kr)).1) := by
  obtain ⟨r, hr, hd, hp, hf, rfl⟩ := mem_catalogOf.mp hs
  refine ⟨r.x, r.y, r.a, r.b, (E.kron r.x r.y r.a r.b (thetaFixV r.theta) 6).1,
    ?_, ?_, ?_, ?_, ?_, ?_, ?_, ?_⟩
  · rw [phase2_x, phase1_x]
  · rw [phase2_y, phase1_y]
  · rw [phase2_a, phase1_a]
  · rw [phase2_b, phase1_b]
  · rw [phase2_kronrad, phase1_kronrad]
  · rw [phase2_flux, phase1_flux]
  · rw [phase2_fluxerr, phase1_fluxerr]
  · rfl

unseal Rat.add Rat.mul Rat.sub Rat.inv in
/-- Witness for C10 at a concrete catalog row. -/
theorem C10_witness :
    phase2 exClean (phase1 exClean 1 rawTemplate) ∈ catalogOf exClean 1 [rawTemplate] ∧
    (∃ x y a b kr,
      (phase2 exClean (phase1 exClean 1 rawTemplate)).x = vAdd x (some 1) ∧
      (phase2 exClean (phase1 exClean 1 rawTemplate)).y = vAdd y (some 1) ∧
      (phase2 exClean (phase1 exClean 1 rawTemplate)).a = a ∧
      (phase2 exClean (phase1 exClean 1 rawTemplate)).b = b ∧
      (phase2 exClean (phase1 exClean 1 rawTemplate)).kronrad = kr ∧
      (phase2 exClean (phase1 exClean 1 rawTemplate)).flux =
        (exClean.sumEllipse x y a b (npPi / 2) (vMul (some (5/2)) kr)).1 ∧
      (phase2 exClean (phase1 exClean 1 rawTemplate)).fluxerr =
        (exClean.sumEllipse x y a b (npPi / 2) (vMul (some (5/2)) kr)).2.1 ∧
      (phase2 exClean (phase1 exClean 1 rawTemplate)).background =
        (if vGt (bkgArea (phase2 exClean (phase1 exClean 1 rawTemplate))) (some 0) then
          vDiv (exClean.sumEllipseBkg x y a b (npPi / 2) (vMul (some (5/2)) kr)).1
            (bkgArea (phase2 exClean (phase1 exClean 1 rawTemplate)))
        else (exClean.sumEllipseBkg x y a b (npPi / 2) (vMul (some (5/2)) kr)).1)) := by
  have hs : phase2 exClean (phase1 exClean 1 rawTemplate) ∈ catalogOf exClean 1 [rawTemplate] := by
    decide
  exact ⟨hs, C10_ellipse_angle_is_half_pi exClean 1 [rawTemplate] _ hs⟩

theorem npPi_pos : (0 : ℚ) < npPi := by norm_num [npPi]

/-- Bounds on the degree conversion: a fixed angle within `[-π/2, π/2]`
lands within `[-90, 90]` degrees. -/
theorem degrees_bound (q' : ℚ) (h1 : -(npPi / 2) ≤ q') (h2 : q' ≤ npPi / 2) :
    -90 ≤ q' * 180 / npPi ∧ q' * 180 / npPi ≤ 90 := by
  have hpos : (0 : ℚ) < npPi := npPi_pos
  constructor
  · rw [le_div_iff₀ hpos]
    linarith
  · rw [div_le_iff₀ hpos]
    linarith

theorem degreesV_some (q' : ℚ) : degreesV (some q') = some (q' * 180 / npPi) := by
  simp [degreesV, vMul, vDiv, ne_of_gt npPi_pos]

unseal Rat.add Rat.mul Rat.sub Rat.inv in
/-- Counterexample to claim C3 as stated: a source whose extraction
position angle is exactly `-π/2` is left untouched by the normalisation
(the masks only move values strictly outside `[-π/2, π/2]`), so the final
catalog carries `theta = -90°`, which is outside the claimed half-open
interval `(-90°, 90°]`. -/
theorem C3_counterexample :
    phase2 exThetaHalfPi (phase1 exThetaHalfPi 1 rawThetaHalfPi) ∈
      catalogOf exThetaHalfPi 1 [rawThetaHalfPi] ∧
    (phase2 exThetaHalfPi (phase1 exThetaHalfPi 1 rawThetaHalfPi)).theta = some (-90) ∧
    ¬(∀ s ∈ catalogOf exThetaHalfPi 1 [rawThetaHalfPi],
        ∀ d : ℚ, s.theta = some d → -90 < d ∧ d ≤ 90) := by
  refine ⟨by decide, by decide, fun h => ?_⟩
  have h2 := (h (phase2 exThetaHalfPi (phase1 exThetaHalfPi 1 rawThetaHalfPi)) (by decide)
      (-90) (by decide)).1
  exact absurd h2 (lt_irrefl _)

/-- Claim C3, amended: for every catalog source whose raw position angle is
a number within one period of the normalisation (`|θ| < 3π/2`), the final
`theta` column is that angle normalised into the closed interval
`[-π/2, π/2]` and converted to degrees, hence lies in `[-90°, 90°]` — the
lower endpoint `-90°` inclusive, not exclusive as claimed, since an angle of
exactly `-π/2` is preserved. -/
theorem C3_amended_theta_range (E : Extern) (ps : ℚ) (raws : List RawSource)
    (r : RawSource) (q : ℚ) (hr : r ∈ raws) (hq : r.theta = some q)
    (hlb : -(3/2 * npPi) < q) (hub : q < 3/2 * npPi)
    (hd : detFilter r = true) (hp : pruneOk r = true)
    (hf : fradOk (phase1 E ps r) = true) :
    phase2 E (phase1 E ps r) ∈ catalogOf E ps raws ∧
    (phase2 E (phase1 E ps r)).theta = degreesV (thetaFixV (some q)) ∧
    ∃ d, (phase2 E (phase1 E ps r)).theta = some d ∧ -90 ≤ d ∧ d ≤ 90 := by
  have hmem : phase2 E (phase1 E ps r) ∈ catalogOf E ps raws :=
    mem_catalogOf.mpr ⟨r, hr, hd, hp, hf, rfl⟩
  have htheta : (phase2 E (phase1 E ps r)).theta = degreesV (thetaFixV (some q)) := by
    rw [phase2_theta, phase1_theta, hq]
  refine ⟨hmem, htheta, ?_⟩
  by_cases h1 : npPi / 2 < q
  · have hno : ¬(q - npPi < -(npPi / 2)) := by linarith
    have hfix : thetaFixV (some q) = some (q - npPi) := by
      simp [thetaFixV, vGt, vLt, vSub, h1, hno]
    refine ⟨(q - npPi) * 180 / npPi, ?_, ?_, ?_⟩
    · rw [htheta, hfix, degreesV_some]
    · exact (degrees_bound (q - npPi) (by linarith) (by linarith)).1
    · exact (degrees_bound (q - npPi) (by linarith) (by linarith)).2
  · by_cases h2 : q < -(npPi / 2)
    · have hfix : thetaFixV (some q) = some (q + npPi) := by
        simp [thetaFixV, vGt, vLt, vAdd, h1, h2]
      refine ⟨(q + npPi) * 180 / npPi, ?_, ?_, ?_⟩
      · rw [htheta, hfix, degreesV_some]
      · exact (degrees_bound (q + npPi) (by linarith) (by linarith)).1
      · exact (degrees_bound (q + npPi) (by linarith) (by linarith)).2
    · have hfix : thetaFixV (some q) = some q := by
        simp [thetaFixV, vGt, vLt, h1, h2]
      refine ⟨q * 180 / npPi, ?_, ?_, ?_⟩
      · rw [htheta, hfix, degreesV_some]
      · exact (degrees_bound q (by linarith) (by linarith)).1
      · exact (degrees_bound q (by linarith) (by linarith)).2

unseal Rat.add Rat.mul Rat.sub Rat.inv in
/-- Witness for the amended C3 at a concrete source with raw angle 0. -/
theorem C3_amended_witness :
    phase2 exClean (phase1 exClean 1 rawTemplate) ∈ catalogOf exClean 1 [rawTemplate] ∧
    (phase2 exClean (phase1 exClean 1 rawTemplate)).theta = degreesV (thetaFixV (some 0)) ∧
    ∃ d, (phase2 exClean (phase1 exClean 1 rawTemplate)).theta = some d ∧
      -90 ≤ d ∧ d ≤ 90 :=
  C3_amended_theta_range exClean 1 [rawTemplate] rawTemplate 0 (by decide) rfl
    (by norm_num [npPi]) (by norm_num [npPi]) (by decide) (by decide) (by decide)

/-- The four frame-quality keywords written in sequence are all readable
back. -/
theorem metaGet_l1quad (m0 : List (String × MV)) (v1 v2 v3 v4 : MV) :
    metaGet (metaSet (metaSet (metaSet (metaSet m0 "L1FWHM" v1) "L1FWTM" v2)
        "L1ELLIP" v3) "L1ELLIPA" v4) "L1FWHM" = some v1 ∧
    metaGet (metaSet (metaSet (metaSet (metaSet m0 "L1FWHM" v1) "L1FWTM" v2)
        "L1ELLIP" v3) "L1ELLIPA" v4) "L1FWTM" = some v2 ∧
    metaGet (metaSet (metaSet (metaSet (metaSet m0 "L1FWHM" v1) "L1FWTM" v2)
        "L1ELLIP" v3) "L1ELLIPA" v4) "L1ELLIP" = some v3 ∧
    metaGet (metaSet (metaSet (metaSet (metaSet m0 "L1FWHM" v1) "L1FWTM" v2)
        "L1ELLIP" v3) "L1ELLIPA" v4) "L1ELLIPA" = some v4 := by
  refine ⟨?_, ?_, ?_, ?_⟩
  · rw [metaGet_metaSet_other _ _ _ _ (by decide),
        metaGet_metaSet_other _ _ _ _ (by decide),
        metaGet_metaSet_other _ _ _ _ (by decide), metaGet_metaSet_same]
  · rw [metaGet_metaSet_other _ _ _ _ (by decide),
        metaGet_metaSet_other _ _ _ _ (by decide), metaGet_metaSet_same]
  · rw [metaGet_metaSet_other _ _ _ _ (by decide), metaGet_metaSet_same]
  · rw [metaGet_metaSet_same]

/-- Claim C7: the frame-level image-quality statistics are computed only
over catalog sources with flag zero and no NaN in FWHM, ellipticity or
position angle; with zero qualifying sources each keyword is still written,
holding the explicit `'NaN'` string sentinel, and in every successful run
all four keywords are present. -/
theorem C7_frame_statistics (E : Extern) (img : Image)
    (hb : E.bkgOk = true) (he : E.extractOk = true) :
    ((catalogOf E img.pixelScale E.extracted).filter isGood = [] →
      metaGet (doStage E img).1.meta "L1FWHM" = some (MV.str "NaN") ∧
      metaGet (doStage E img).1.meta "L1FWTM" = some (MV.str "NaN") ∧
      metaGet (doStage E img).1.meta "L1ELLIP" = some (MV.str "NaN") ∧
      metaGet (doStage E img).1.meta "L1ELLIPA" = some (MV.str "NaN")) ∧
    (∀ good, good = (catalogOf E img.pixelScale E.extracted).filter isGood → good ≠ [] →
      metaGet (doStage E img).1.meta "L1FWHM" =
        some (MV.num (vMul (E.nanmedian (good.map Source.fwhm)) (some img.pixelScale))) ∧
      metaGet (doStage E img).1.meta "L1FWTM" =
        some (MV.num (E.nanmedian (good.map (fun s => vDiv s.fwtm s.fwhm)))) ∧
      metaGet (doStage E img).1.meta "L1ELLIP" =
        some (MV.num (E.sigClipMean (good.map Source.ellipticity) 3)) ∧
      metaGet (doStage E img).1.meta "L1ELLIPA" =
        some (MV.num (E.sigClipMean (good.map Source.theta) 3))) ∧
    (metaGet (doStage E img).1.meta "L1FWHM").isSome = true ∧
    (metaGet (doStage E img).1.meta "L1FWTM").isSome = true ∧
    (metaGet (doStage E img).1.meta "L1ELLIP").isSome = true ∧
    (metaGet (doStage E img).1.meta "L1ELLIPA").isSome = true := by
  have hstage : (doStage E img).1.meta =
      (if ((catalogOf E img.pixelScale E.extracted).filter isGood).isEmpty then
        metaSet (metaSet (metaSet (metaSet
          (metaSet (metaSet (metaSet img.meta "L1MEAN" (MV.num (some E.bkgMean)))
            "L1MEDIAN" (MV.num (some E.bkgMedian))) "L1SIGMA" (MV.num (some E.bkgSigma)))
          "L1FWHM" (MV.str "NaN")) "L1FWTM" (MV.str "NaN")) "L1ELLIP" (MV.str "NaN"))
          "L1ELLIPA" (MV.str "NaN")
      else
        metaSet (metaSet (metaSet (metaSet
          (metaSet (metaSet (metaSet img.meta "L1MEAN" (MV.num (some E.bkgMean)))
            "L1MEDIAN" (MV.num (some E.bkgMedian))) "L1SIGMA" (MV.num (some E.bkgSigma)))
          "L1FWHM" (MV.num (vMul (E.nanmedian
            (((catalogOf E img.pixelScale E.extracted).filter isGood).map Source.fwhm))
            (some img.pixelScale))))
          "L1FWTM" (MV.num (E.nanmedian
            (((catalogOf E img.pixelScale E.extracted).filter isGood).map
              (fun s => vDiv s.fwtm s.fwhm)))))
          "L1ELLIP" (MV.num (E.sigClipMean
            (((catalogOf E img.pixelScale E.extracted).filter isGood).map
              Source.ellipticity) 3)))
          "L1ELLIPA" (MV.num (E.sigClipMean
            (((catalogOf E img.pixelScale E.extracted).filter isGood).map
              Source.theta) 3))) := by
    unfold doStage
    rw [hb, he]
    simp
  by_cases hg : (catalogOf E img.pixelScale E.extracted).filter isGood = []
  · have hmeta := hstage
    rw [hg] at hmeta
    simp only [List.isEmpty_nil, if_true] at hmeta
    refine ⟨fun _ => ?_, fun good hgood hne => absurd (hgood.trans hg) hne, ?_, ?_, ?_, ?_⟩
    · rw [hmeta]
      exact metaGet_l1quad _ _ _ _ _
    all_goals rw [hmeta]
    · rw [(metaGet_l1quad _ _ _ _ _).1]
      rfl
    · rw [(metaGet_l1quad _ _ _ _ _).2.1]
      rfl
    · rw [(metaGet_l1quad _ _ _ _ _).2.2.1]
      rfl
    · rw [(metaGet_l1quad _ _ _ _ _).2.2.2]
      rfl
  · have hne : ((catalogOf E img.pixelScale E.extracted).filter isGood).isEmpty = false := by
      cases hh : (catalogOf E img.pixelScale E.extracted).filter isGood with
      | nil => exact absurd hh hg
      | cons u us => rfl
    have hmeta := hstage
    rw [hne] at hmeta
    simp only [Bool.false_eq_true, if_false] at hmeta
    refine ⟨fun hgg => absurd hgg hg, fun good hgood _ => ?_, ?_, ?_, ?_, ?_⟩
    · subst hgood
      rw [hmeta]
      exact metaGet_l1quad _ _ _ _ _
    all_goals rw [hmeta]
    · rw [(metaGet_l1quad _ _ _ _ _).1]
      rfl
    · rw [(metaGet_l1quad _ _ _ _ _).2.1]
      rfl
    · rw [(metaGet_l1quad _ _ _ _ _).2.2.1]
      rfl
    · rw [(metaGet_l1quad _ _ _ _ _).2.2.2]
      rfl

/-- Witness for C7: a successful run with no detections writes all four
keywords with the `'NaN'` sentinel. -/
theorem C7_witness :
    metaGet (doStage trivExtern trivImage).1.meta "L1FWHM" = some (MV.str "NaN") ∧
    metaGet (doStage trivExtern trivImage).1.meta "L1FWTM" = some (MV.str "NaN") ∧
    metaGet (doStage trivExtern trivImage).1.meta "L1ELLIP" = some (MV.str "NaN") ∧
    metaGet (doStage trivExtern trivImage).1.meta "L1ELLIPA" = some (MV.str "NaN") :=
  (C7_frame_statistics trivExtern trivImage rfl rfl).1 (by decide)

/-- Claim C4: when the cross-match between the detected sources (flag zero,
positive flux) and the reference catalog yields zero pairs, the calibrator
logs an error and returns the image unchanged without raising; the result
does not depend on the zeropoint-fit collaborator at all (it is never
invoked), and the L1ZP-family keywords are exactly as they were on the
incoming image. -/
theorem C4_zero_matches_skips_fit {α β : Type} (C C' : CalExtern α β) (img : Image)
    (cat : List Source) (rc : α)
    (hf : supportedFilters.contains img.filter = true)
    (hc : img.cat = some cat)
    (hw : wcsFailed img = false)
    (hr : C.getRefSources = Except.ok rc)
    (hm : C.matchCatalogs (goodSources cat) rc = [])
    (hr' : C'.getRefSources = Except.ok rc)
    (hm' : C'.matchCatalogs = C.matchCatalogs) :
    calibDoStage C img = (img, [LogLvl.error]) ∧
    calibDoStage C' img = calibDoStage C img ∧
    metaGet (calibDoStage C img).1.meta "L1ZP" = metaGet img.meta "L1ZP" ∧
    metaGet (calibDoStage C img).1.meta "L1ZPERR" = metaGet img.meta "L1ZPERR" ∧
    metaGet (calibDoStage C img).1.meta "L1COLORU" = metaGet img.meta "L1COLORU" ∧
    metaGet (calibDoStage C img).1.meta "L1COLOR" = metaGet img.meta "L1COLOR" ∧
    metaGet (calibDoStage C img).1.meta "L1COLERR" = metaGet img.meta "L1COLERR" := by
  have hC : calibDoStage C img = (img, [LogLvl.error]) := by
    unfold calibDoStage
    rw [hf, hc, hw, hr]
    simp [hm]
  have hC' : calibDoStage C' img = (img, [LogLvl.error]) := by
    unfold calibDoStage
    rw [hf, hc, hw, hr']
    simp [hm', hm]
  refine ⟨hC, hC'.trans hC.symm, ?_, ?_, ?_, ?_, ?_⟩ <;> rw [hC]

/-- Witness for C4 at a concrete calibration-ready image whose (empty)
catalog matches nothing, with two oracles differing in their fit. -/
theorem C4_witness :
    calibDoStage calTriv imgCalReady = (imgCalReady, [LogLvl.error]) ∧
    calibDoStage calTrivAltFit imgCalReady = calibDoStage calTriv imgCalReady ∧
    metaGet (calibDoStage calTriv imgCalReady).1.meta "L1ZP" =
      metaGet imgCalReady.meta "L1ZP" ∧
    metaGet (calibDoStage calTriv imgCalReady).1.meta "L1ZPERR" =
      metaGet imgCalReady.meta "L1ZPERR" ∧
    metaGet (calibDoStage calTriv imgCalReady).1.meta "L1COLORU" =
      metaGet imgCalReady.meta "L1COLORU" ∧
    metaGet (calibDoStage calTriv imgCalReady).1.meta "L1COLOR" =
      metaGet imgCalReady.meta "L1COLOR" ∧
    metaGet (calibDoStage calTriv imgCalReady).1.meta "L1COLERR" =
      metaGet imgCalReady.meta "L1COLERR" :=
  C4_zero_matches_skips_fit calTriv calTrivAltFit imgCalReady [] () rfl rfl
    (by decide) rfl rfl rfl rfl

/-- Counterexample to claim C5 as stated: for an image in an unsupported
filter band the calibrator returns the image unchanged but logs nothing at
all — in particular it does not log the claimed warning. -/
theorem C5_counterexample :
    calibDoStage calTriv imgUnsupported = (imgUnsupported, []) ∧
    LogLvl.warn ∉ (calibDoStage calTriv imgUnsupported).2 := by
  constructor
  · rfl
  · intro hmem
    have : (calibDoStage calTriv imgUnsupported).2 = [] := rfl
    rw [this] at hmem
    exact List.not_mem_nil _ hmem

/-- Claim C5, amended: the calibrator skips entirely — returning the image
unchanged, with the L1ZP keyword left exactly as it was and no error
logged — when the filter is unsupported, when no catalog is attached, or
when the WCS solution is flagged as failed; a warning is logged in the
latter two cases, while the unsupported-filter skip logs nothing. -/
theorem C5_amended_skip_conditions {α β : Type} (C : CalExtern α β) (img : Image) :
    (supportedFilters.contains img.filter = false →
      calibDoStage C img = (img, []) ∧
      metaGet (calibDoStage C img).1.meta "L1ZP" = metaGet img.meta "L1ZP") ∧
    (supportedFilters.contains img.filter = true → img.cat = none →
      calibDoStage C img = (img, [LogLvl.warn]) ∧
      metaGet (calibDoStage C img).1.meta "L1ZP" = metaGet img.meta "L1ZP") ∧
    (∀ cat, supportedFilters.contains img.filter = true → img.cat = some cat →
      wcsFailed img = true →
      calibDoStage C img = (img, [LogLvl.warn]) ∧
      metaGet (calibDoStage C img).1.meta "L1ZP" = metaGet img.meta "L1ZP") := by
  refine ⟨fun hf => ?_, fun hf hc => ?_, fun cat hf hc hw => ?_⟩
  · have h : calibDoStage C img = (img, []) := by
      unfold calibDoStage
      rw [hf]
      simp
    exact ⟨h, by rw [h]⟩
  · have h : calibDoStage C img = (img, [LogLvl.warn]) := by
      unfold calibDoStage
      rw [hf, hc]
      simp
    exact ⟨h, by rw [h]⟩
  · have h : calibDoStage C img = (img, [LogLvl.warn]) := by
      unfold calibDoStage
      rw [hf, hc, hw]
      simp
    exact ⟨h, by rw [h]⟩

/-- Witness for the amended C5: the no-catalog skip at a concrete image
(supported filter, no catalog) logs exactly one warning. -/
theorem C5_amended_witness :
    calibDoStage calTriv trivImage = (trivImage, [LogLvl.warn]) ∧
    metaGet (calibDoStage calTriv trivImage).1.meta "L1ZP" =
      metaGet trivImage.meta "L1ZP" :=
  (C5_amended_skip_conditions calTriv trivImage).2.1 rfl rfl

/-- Claim C9: for a zero-area source (a zero semi-axis), granting SEP's
documented contract that the Kron radius and the elliptical flux then come
back zero or NaN instead of raising, the catalog row indeed carries a
zero-or-NaN Kron radius and flux; and the per-source background
normalisation divides by the elliptical aperture area only where that area
is strictly positive, leaving the raw background sum in place where it is
not — in particular a zero Kron radius always yields a non-positive area
and hence an unnormalised background. -/
theorem C9_zero_area_graceful (E : Extern) (ps : ℚ) (raws : List RawSource) (s : Source)
    (hE : sepZeroAreaGraceful E) (hs : s ∈ catalogOf E ps raws)
    (hzero : s.a = some 0 ∨ s.b = some 0) :
    ((s.kronrad = some 0 ∨ s.kronrad = none) ∧ (s.flux = some 0 ∨ s.flux = none)) ∧
    (∀ t : Source,
      (vGt (bkgArea t) (some 0) = false →
        (mapBackground E t).background =
          (E.sumEllipseBkg t.x t.y t.a t.b (npPi / 2) (vMul (some (5/2)) t.kronrad)).1) ∧
      (vGt (bkgArea t) (some 0) = true →
        (mapBackground E t).background =
          vDiv (E.sumEllipseBkg t.x t.y t.a t.b (npPi / 2) (vMul (some (5/2)) t.kronrad)).1
            (bkgArea t)) ∧
      (t.kronrad = some 0 → vGt (bkgArea t) (some 0) = false)) := by
  constructor
  · obtain ⟨r, hr, hd, hp, hf, rfl⟩ := mem_catalogOf.mp hs
    have hab : r.a = some 0 ∨ r.b = some 0 := by
      rcases hzero with h | h
      · exact Or.inl (by rw [phase2_a, phase1_a] at h; exact h)
      · exact Or.inr (by rw [phase2_b, phase1_b] at h; exact h)
    constructor
    · rw [phase2_kronrad, phase1_kronrad]
      exact hE.1 r.x r.y r.a r.b (thetaFixV r.theta) 6 hab
    · rw [phase2_flux, phase1_flux]
      exact hE.2 r.x r.y r.a r.b (npPi / 2) _ (by tauto)
  · intro t
    refine ⟨fun h => ?_, fun h => ?_, fun hk => ?_⟩
    · simp only [mapBackground, h]
      rfl
    · simp only [mapBackground, h]
      rfl
    · cases ha : t.a with
      | none => simp [bkgArea, vMul, vGt, hk, ha]
      | some qa =>
        cases hb : t.b with
        | none => simp [bkgArea, vMul, vGt, hk, ha, hb]
        | some qb => simp [bkgArea, vMul, vGt, hk, ha, hb]

unseal Rat.add Rat.mul Rat.sub Rat.inv in
/-- Witness for C9: a concrete zero-area detection measured by a gracefully
degrading oracle ends up in the catalog with zero Kron radius and flux. -/
theorem C9_witness :
    sepZeroAreaGraceful exZeroArea ∧
    phase2 exZeroArea (phase1 exZeroArea 1 rawZeroA) ∈ catalogOf exZeroArea 1 [rawZeroA] ∧
    ((phase2 exZeroArea (phase1 exZeroArea 1 rawZeroA)).kronrad = some 0 ∨
      (phase2 exZeroArea (phase1 exZeroArea 1 rawZeroA)).kronrad = none) ∧
    ((phase2 exZeroArea (phase1 exZeroArea 1 rawZeroA)).flux = some 0 ∨
      (phase2 exZeroArea (phase1 exZeroArea 1 rawZeroA)).flux = none) := by
  have hE : sepZeroAreaGraceful exZeroArea := by
    constructor
    · intro x y a b th rr h
      rcases h with h | h <;> subst h <;> simp [exZeroArea, trivExtern]
    · intro x y a b th rr h
      left
      rcases h with h | h | h | h <;> subst h <;> simp [exZeroArea, trivExtern]
  have hs : phase2 exZeroArea (phase1 exZeroArea 1 rawZeroA) ∈
      catalogOf exZeroArea 1 [rawZeroA] := by decide
  have h := C9_zero_area_graceful exZeroArea 1 [rawZeroA]
    (phase2 exZeroArea (phase1 exZeroArea 1 rawZeroA)) hE hs (Or.inl (by decide))
  exact ⟨hE, hs, h.1.1, h.1.2⟩

end Banzai
